import Mathlib

/-!
Verification development for the pysaa credential and access-control service.

The definitions below are a shallow embedding of the Python sources:
`src/server.py` (request flows), `src/model.py` (entity mapper semantics),
`src/dbapi.py` (the `dbconn` decorator) and `src/settings.py` (configuration).
Machine state is the relational store (`Store`), time is an explicit `Int`
parameter (`time.time()`), and randomness (`utils.random_string`) is an
explicit `String` parameter.  Python exceptions are modelled by the `Exc`
type; flows return an `Except Exc ReqData` outcome paired with the working
store reached when the flow finished or raised.
-/

namespace PySAA

/-- Configuration settings consumed by the flows (src/settings.py). -/
structure Settings where
  T_ACTIVATION : Int
  MAX_ATTEMPTS : Nat
  T_LOGIN : Int
  T_BLOCKED : Int
  T_SESSION : Int
  T_REFRESH : Int
deriving Repr, DecidableEq

/-- Concrete values from src/settings.py: 24h activation TTL, 5 attempts,
5s retry window, 15min block, 2h session TTL, 5min refresh threshold. -/
def defaultSettings : Settings :=
  { T_ACTIVATION := 86400, MAX_ATTEMPTS := 5, T_LOGIN := 5
  , T_BLOCKED := 900, T_SESSION := 7200, T_REFRESH := 300 }

/-- User.STATUS_INACTIVE (src/model.py line 292). -/
def STATUS_INACTIVE : Nat := 0
/-- User.STATUS_ACTIVE (src/model.py line 293). -/
def STATUS_ACTIVE : Nat := 1
/-- User.STATUS_BLOCKED (src/model.py line 294). -/
def STATUS_BLOCKED : Nat := 2
/-- Login.STATUS_REFUSED (src/model.py line 308). -/
def LOGIN_REFUSED : Nat := 0
/-- Login.STATUS_ACCEPTED (src/model.py line 309). -/
def LOGIN_ACCEPTED : Nat := 1
/-- Role.ROLE_ANONYMOUS (src/model.py line 323). -/
def ROLE_ANONYMOUS : Nat := 1
/-- Role.ROLE_STANDARD (src/model.py line 324). -/
def ROLE_STANDARD : Nat := 2

/-- A row of the `users` table (src/model.py class User). -/
structure UserRow where
  user_id : Nat
  email : String
  password : String
  status : Nat
  role_id : Nat
deriving Repr, DecidableEq

/-- A row of the `activations` table (src/model.py class Activation). -/
structure ActRow where
  user_id : Nat
  activation_id : String
  created : Int
deriving Repr, DecidableEq

/-- A row of the `logins` table (src/model.py class Login). -/
structure LoginRow where
  user_id : Nat
  session_id : String
  status : Nat
  attempts : Nat
  created : Int
deriving Repr, DecidableEq

/-- A row of the `roles` table (src/model.py class Role); `parent_id = none`
models a NULL parent link. -/
structure RoleRow where
  role_id : Nat
  parent_id : Option Nat
deriving Repr, DecidableEq

/-- A row of the `permissions` table (src/model.py class Permission). -/
structure PermRow where
  permission_id : Nat
  role_id : Nat
  object_id : String
deriving Repr, DecidableEq

/-- The relational store the flows read and write. -/
structure Store where
  users : List UserRow
  activations : List ActRow
  logins : List LoginRow
  roles : List RoleRow
  permissions : List PermRow
deriving Repr, DecidableEq

/-- The request/response mapping handled by PySAAServer.handle_request;
`none` models an absent key.  The `type` key is named `rtype` because
`type` is reserved in Lean. -/
structure ReqData where
  rtype : String
  email : Option String
  pwd : Option String
  aid : Option String
  sid : Option String
  oid : Option String
  result : Option Bool
  error : Option String
deriving Repr, DecidableEq

/-- Python exceptions reachable from the flows: PySAAError and its three
subclasses (src/server.py lines 461-482), DbError (src/dbapi.py line 267),
and the built-in AttributeError, KeyError and RecursionError. -/
inductive Exc where
  | pysaaErr (msg : String)
  | registrationErr (msg : String)
  | activationErr (msg : String)
  | authenticationErr (msg : String)
  | dbErr (msg : String)
  | attrErr (msg : String)
  | keyErr (msg : String)
  | recursionErr
deriving Repr, DecidableEq

/-- True for PySAAError and its subclasses: exactly the exceptions caught by
`except PySAAError` in handle_request (src/server.py line 530). -/
def isPySAA : Exc → Bool
  | .pysaaErr _ => true
  | .registrationErr _ => true
  | .activationErr _ => true
  | .authenticationErr _ => true
  | _ => false

/-- True for DbError: the only exception caught by the dbconn decorator
(src/dbapi.py line 34). -/
def isDbErr : Exc → Bool
  | .dbErr _ => true
  | _ => false

/- ## SQL queries issued by the entity mapper -/

/-- `User(db).list(email=e)` (src/server.py line 58). -/
def usersByEmail (st : Store) (email : String) : List UserRow :=
  st.users.filter (fun u => u.email == email)

/-- `select * from users where user_id = uid` (src/model.py EntityBase.get). -/
def usersWithId (st : Store) (uid : Nat) : List UserRow :=
  st.users.filter (fun u => u.user_id == uid)

/-- `select * from logins where user_id = uid`. -/
def loginsOfUser (st : Store) (uid : Nat) : List LoginRow :=
  st.logins.filter (fun l => l.user_id == uid)

/-- `Login(db).list(session_id=sid)` (src/server.py line 78). -/
def loginsBySid (st : Store) (sid : String) : List LoginRow :=
  st.logins.filter (fun l => l.session_id == sid)

/-- `select * from activations where user_id = uid`. -/
def actsOfUser (st : Store) (uid : Nat) : List ActRow :=
  st.activations.filter (fun a => a.user_id == uid)

/-- `Activation(db).list(activation_id=aid)` (src/server.py line 214). -/
def actsByAid (st : Store) (aid : String) : List ActRow :=
  st.activations.filter (fun a => a.activation_id == aid)

/-- `select * from roles where role_id = r`. -/
def rolesWithId (st : Store) (r : Nat) : List RoleRow :=
  st.roles.filter (fun x => x.role_id == r)

/- ## Entity mapper semantics (src/model.py EntityBase) -/

/-- `EntityBase.get` keyed by user_id fetched through `User(db, uid)`:
no row leaves the entity attribute-less (`.ok none`, the "phantom" entity);
more than one row raises DbError (src/model.py lines 93-100). -/
def userGetE (st : Store) (uid : Nat) : Except Exc (Option UserRow) :=
  match usersWithId st uid with
  | [] => .ok none
  | [u] => .ok (some u)
  | _ => .error (.dbErr ("not a singular entity"))

/-- `Login(db, uid)` through EntityBase.get, as `userGetE`. -/
def loginGetE (st : Store) (uid : Nat) : Except Exc (Option LoginRow) :=
  match loginsOfUser st uid with
  | [] => .ok none
  | [l] => .ok (some l)
  | _ => .error (.dbErr ("not a singular entity"))

/-- `Activation(db, uid)` through EntityBase.get, as `userGetE`. -/
def actGetE (st : Store) (uid : Nat) : Except Exc (Option ActRow) :=
  match actsOfUser st uid with
  | [] => .ok none
  | [a] => .ok (some a)
  | _ => .error (.dbErr ("not a singular entity"))

/-- `EntityBase.update`: raises DbError when the keyed row is missing or not
unique (src/model.py lines 206-212), otherwise overwrites the row in place.
The source checks the cursor row count; here the count is the number of rows
matching the key. -/
def updateRows {α : Type} (rows : List α) (key : α → Nat) (k : Nat) (nu : α) :
    Except Exc (List α) :=
  match rows.filter (fun r => key r == k) with
  | [] => .error (.dbErr ("update entity not stored in database"))
  | [_] => .ok (rows.map (fun r => if key r == k then nu else r))
  | _ => .error (.dbErr ("update entity not a singular entity"))

/-- `EntityBase.delete`: raises DbError when the keyed row is missing or not
unique (src/model.py lines 234-240), otherwise removes it. -/
def deleteRows {α : Type} (rows : List α) (key : α → Nat) (k : Nat) :
    Except Exc (List α) :=
  match rows.filter (fun r => key r == k) with
  | [] => .error (.dbErr ("delete entity not stored in database"))
  | [_] => .ok (rows.filter (fun r => !(key r == k)))
  | _ => .error (.dbErr ("delete entity not a singular entity"))

/-- `EntityBase.__bool__` for a loaded Login row: true when any column value
is truthy in Python (src/model.py lines 57-66). -/
def loginTruthy (l : LoginRow) : Bool :=
  l.user_id != 0 || l.session_id != "" || l.status != 0 || l.attempts != 0 || l.created != 0

/-- `EntityBase.__bool__` for a loaded User row. -/
def userTruthy (u : UserRow) : Bool :=
  u.user_id != 0 || u.email != "" || u.password != "" || u.status != 0 || u.role_id != 0

/-- `EntityBase.__bool__` for a loaded Activation row. -/
def actTruthy (a : ActRow) : Bool :=
  a.user_id != 0 || a.activation_id != "" || a.created != 0

/-- Truthiness of the value of `Login(db, uid)`: a phantom entity (no row, so
no attributes were ever set) is falsy because `__bool__` reads every column
through `getattr(self, k, None)`. -/
def optLoginTruthy (lo : Option LoginRow) : Bool :=
  match lo with
  | some l => loginTruthy l
  | none => false

/-- Python truthiness of an optional integer foreign key (`if role.parent_id:`):
NULL and 0 are falsy. -/
def optTruthy : Option Nat → Bool
  | some n => n != 0
  | none => false

/-- The Role entity as the resolver sees it: `rid` is the `id` attribute set
by EntityBase.get, `parent_id` the column. -/
structure RoleEnt where
  rid : Option Nat
  parent_id : Option Nat
deriving Repr, DecidableEq

/-- `Role(db, r)` (src/model.py EntityBase.__init__): a falsy id yields the
empty entity (all attributes None); a truthy id loads the row.  When the id is
truthy but no row exists the entity has no attributes at all, so the first
attribute access in the resolver (`role.id` / `role.parent_id`) raises
AttributeError; that crash is modelled here at construction. -/
def roleNewE (st : Store) (r : Option Nat) : Except Exc RoleEnt :=
  match r with
  | none => .ok { rid := none, parent_id := none }
  | some k =>
    if k == 0 then .ok { rid := none, parent_id := none }
    else
      match rolesWithId st k with
      | [] => .error (.attrErr ("Role instance has no attributes"))
      | [row] => .ok { rid := some k, parent_id := row.parent_id }
      | _ => .error (.dbErr ("not a singular entity"))

/-- AuthorizationRequest.get_permissions_by_role (src/server.py lines 401-419):
collects this role's granted object ids, loads the parent entity, and recurses
on the parent only when the parent itself has a truthy parent_id.  Fuel bounds
the recursion; an acyclic role table of n rows never needs more than n+1 fuel,
and running out models the RecursionError a cyclic table would produce. -/
def get_permissions_by_role (st : Store) : Nat → RoleEnt → Except Exc (List String)
  | 0, _ => .error .recursionErr
  | Nat.succ fuel, role =>
    let oid_list :=
      (st.permissions.filter (fun p =>
        match role.rid with
        | some k => p.role_id == k
        | none => false)).map (fun p => p.object_id)
    match roleNewE st role.parent_id with
    | .error e => .error e
    | .ok parent =>
      if optTruthy parent.parent_id then
        match get_permissions_by_role st fuel parent with
        | .error e => .error e
        | .ok more => .ok (oid_list ++ more)
      else
        .ok oid_list

/- ## LoginFlow (src/server.py class AuthenticationRequest) -/

/-- AuthenticationRequest.check_user (src/server.py lines 285-311): inactive
users raise; a blocked user raises while a truthy Login row is within the block
window (`lo and (time.time() - lo.created) <= settings.T_BLOCKED`, short
circuiting on a falsy entity), and is otherwise set Active again and the flow
continues.  Returns the (possibly unblocked) user together with the store. -/
def auth_check_user (s : Settings) (now : Int) (st : Store) (user : UserRow) :
    Except Exc UserRow × Store :=
  if user.status == STATUS_INACTIVE then
    (.error (.authenticationErr ("user registered but not activated")), st)
  else if user.status == STATUS_BLOCKED then
    match loginGetE st user.user_id with
    | .error e => (.error e, st)
    | .ok lo =>
      let recent :=
        match lo with
        | some l => loginTruthy l && decide (now - l.created ≤ s.T_BLOCKED)
        | none => false
      if recent then
        (.error (.authenticationErr ("user is temporally blocked, try later")), st)
      else
        match updateRows st.users (fun u => u.user_id) user.user_id
            { user with status := STATUS_ACTIVE } with
        | .error e => (.error e, st)
        | .ok ul => (.ok { user with status := STATUS_ACTIVE }, { st with users := ul })
  else
    (.ok user, st)

/-- AuthenticationRequest.save_login (src/server.py lines 313-334): builds the
Login row for this attempt (a fresh random session id only when accepted, the
empty string otherwise) and saves it.  `Login(self.db, user.id)` with a truthy
id always goes through EntityBase.get: a loaded row makes `save` an update,
while a missing row leaves the entity without an `id` attribute so that
`save`'s `if self.id:` raises AttributeError. -/
def save_login (now : Int) (rand : String) (st : Store) (user : UserRow)
    (status : Nat) (n : Nat) : Except Exc (LoginRow × Store) :=
  let sid := if status == LOGIN_ACCEPTED then rand else ""
  match loginGetE st user.user_id with
  | .error e => .error e
  | .ok none => .error (.attrErr ("Login instance has no id attribute"))
  | .ok (some _) =>
    let row : LoginRow :=
      { user_id := user.user_id, session_id := sid, status := status
      , attempts := n, created := now }
    match updateRows st.logins (fun l => l.user_id) user.user_id row with
    | .error e => .error e
    | .ok ll => .ok (row, { st with logins := ll })

/-- AuthenticationRequest.do_process (src/server.py lines 226-283): lookup by
email, status gate, then either register an accepted login and return the new
session id (deleting the password from the response), or apply the
wrong-password attempt-counter policy, persist a refused login and return
result False (the password key is left in the response on this path). -/
def authentication_do_process (s : Settings) (now : Int) (rand : String)
    (st : Store) (data : ReqData) : Except Exc ReqData × Store :=
  match data.email with
  | none => (.error (.keyErr ("email")), st)
  | some email =>
  match data.pwd with
  | none => (.error (.keyErr ("pwd")), st)
  | some password =>
  match usersByEmail st email with
  | [] => (.error (.authenticationErr ("user not registered")), st)
  | _ :: _ :: _ => (.error (.pysaaErr ("duplicate email, it must be unique")), st)
  | [user0] =>
    match auth_check_user s now st user0 with
    | (.error e, st1) => (.error e, st1)
    | (.ok user, st1) =>
      match loginGetE st1 user.user_id with
      | .error e => (.error e, st1)
      | .ok lo =>
        let attempts : Nat :=
          match lo with
          | some l => if loginTruthy l then l.attempts else 0
          | none => 0
        let last_ts : Int :=
          match lo with
          | some l => if loginTruthy l then l.created else 0
          | none => 0
        if user.password == password then
          match save_login now rand st1 user LOGIN_ACCEPTED 0 with
          | .error e => (.error e, st1)
          | .ok (lrow, st2) =>
            (.ok { data with sid := some lrow.session_id, result := some true, pwd := none }, st2)
        else
          if attempts == 0 then
            match save_login now rand st1 user LOGIN_REFUSED 1 with
            | .error e => (.error e, st1)
            | .ok (_, st2) => (.ok { data with result := some false }, st2)
          else if now - last_ts ≤ s.T_LOGIN then
            if s.MAX_ATTEMPTS ≤ attempts + 1 then
              match updateRows st1.users (fun u => u.user_id) user.user_id
                  { user with status := STATUS_BLOCKED } with
              | .error e => (.error e, st1)
              | .ok ul =>
                let st2 := { st1 with users := ul }
                match save_login now rand st2 user LOGIN_REFUSED 0 with
                | .error e => (.error e, st2)
                | .ok (_, st3) => (.ok { data with result := some false }, st3)
            else
              match save_login now rand st1 user LOGIN_REFUSED (attempts + 1) with
              | .error e => (.error e, st1)
              | .ok (_, st2) => (.ok { data with result := some false }, st2)
          else
            match save_login now rand st1 user LOGIN_REFUSED attempts with
            | .error e => (.error e, st1)
            | .ok (_, st2) => (.ok { data with result := some false }, st2)

/- ## RegistrationFlow (src/server.py class RegistrationRequest) -/

/-- RegistrationRequest.check_user (src/server.py lines 116-147): a non
inactive user raises DuplicateRegistration; an inactive user with a truthy
activation whose age is at most T_ACTIVATION raises PendingActivation;
otherwise registration may continue. -/
def registration_check_user (s : Settings) (now : Int) (st : Store)
    (user : UserRow) : Except Exc Unit :=
  if !(user.status == STATUS_INACTIVE) then
    .error (.registrationErr ("user already registered"))
  else
    match actGetE st user.user_id with
    | .error e => .error e
    | .ok ao =>
      let pending :=
        match ao with
        | some act => actTruthy act && decide (now - act.created ≤ s.T_ACTIVATION)
        | none => false
      if pending then
        .error (.registrationErr ("user already registered but not activated"))
      else
        .ok ()

/-- RegistrationRequest.new_activation (src/server.py lines 149-165):
`Activation(self.db, user.id)` loads an existing row (making `save` an
update) or, when no activation row exists, yields an entity whose `id`
attribute was never set, so `save`'s `if self.id:` raises AttributeError. -/
def new_activation (now : Int) (rand : String) (st : Store) (uid : Nat) :
    Except Exc Store :=
  match actGetE st uid with
  | .error e => .error e
  | .ok none => .error (.attrErr ("Activation instance has no id attribute"))
  | .ok (some _) =>
    match updateRows st.activations (fun a => a.user_id) uid
        { user_id := uid, activation_id := rand, created := now } with
    | .error e => .error e
    | .ok al => .ok { st with activations := al }

/-- The next autoincrement user id handed back by `get_lastrowid` after the
insert of a fresh user. -/
def nextUserId (st : Store) : Nat :=
  (st.users.map (fun u => u.user_id)).foldr max 0 + 1

/-- RegistrationRequest.do_process (src/server.py lines 90-114): unknown email
inserts a fresh inactive standard-role user; a known email passes check_user
and has its password overwritten; both paths then create the activation
(new_activation), notify (send_mail, an external collaborator with no store
effect), set result True and delete the password from the response. -/
def registration_do_process (s : Settings) (now : Int) (rand : String)
    (st : Store) (data : ReqData) : Except Exc ReqData × Store :=
  match data.email with
  | none => (.error (.keyErr ("email")), st)
  | some email =>
  match data.pwd with
  | none => (.error (.keyErr ("pwd")), st)
  | some password =>
  match usersByEmail st email with
  | [] =>
    let uid := nextUserId st
    let user : UserRow :=
      { user_id := uid, email := email, password := password
      , status := STATUS_INACTIVE, role_id := ROLE_STANDARD }
    let st1 := { st with users := st.users ++ [user] }
    match new_activation now rand st1 uid with
    | .error e => (.error e, st1)
    | .ok st2 => (.ok { data with result := some true, pwd := none }, st2)
  | _ :: _ :: _ => (.error (.pysaaErr ("duplicate email, it must be unique")), st)
  | [user0] =>
    match registration_check_user s now st user0 with
    | .error e => (.error e, st)
    | .ok _ =>
      match updateRows st.users (fun u => u.user_id) user0.user_id
          { user0 with password := password } with
      | .error e => (.error e, st)
      | .ok ul =>
        let st1 := { st with users := ul }
        match new_activation now rand st1 user0.user_id with
        | .error e => (.error e, st1)
        | .ok st2 => (.ok { data with result := some true, pwd := none }, st2)

/- ## ActivationFlow (src/server.py class ActivationRequest) -/

/-- ActivationRequest.do_process (src/server.py lines 174-201): unknown token
raises InvalidActivationLink; a token whose owner is missing or falsy deletes
the token and raises InvalidActivationLink; a token aged at least T_ACTIVATION
deletes token and account and raises ActivationExpired; otherwise the account
becomes Active, the token is deleted and the request succeeds.  The entity id
of the activation fetched through `list` is its user_id column
(`entity.id = row[self.table_id]`, src/model.py line 285). -/
def activation_do_process (s : Settings) (now : Int) (st : Store)
    (data : ReqData) : Except Exc ReqData × Store :=
  match data.aid with
  | none => (.error (.keyErr ("aid")), st)
  | some aid =>
  match actsByAid st aid with
  | [] => (.error (.activationErr ("activation link not valid")), st)
  | act :: _ =>
    match userGetE st act.user_id with
    | .error e => (.error e, st)
    | .ok uo =>
      if !(match uo with | some user => userTruthy user | none => false) then
        match deleteRows st.activations (fun a => a.user_id) act.user_id with
        | .error e => (.error e, st)
        | .ok al =>
          (.error (.activationErr ("activation link not valid")),
           { st with activations := al })
      else
        match uo with
        | none => (.error (.attrErr ("unreachable: falsy user handled above")), st)
        | some user =>
          if s.T_ACTIVATION ≤ now - act.created then
            match deleteRows st.activations (fun a => a.user_id) act.user_id with
            | .error e => (.error e, st)
            | .ok al =>
              match deleteRows st.users (fun u => u.user_id) user.user_id with
              | .error e => (.error e, { st with activations := al })
              | .ok ul =>
                (.error (.activationErr ("activation link expired")),
                 { st with activations := al, users := ul })
          else
            match updateRows st.users (fun u => u.user_id) user.user_id
                { user with status := STATUS_ACTIVE } with
            | .error e => (.error e, st)
            | .ok ul =>
              match deleteRows st.activations (fun a => a.user_id) act.user_id with
              | .error e => (.error e, { st with users := ul })
              | .ok al =>
                (.ok { data with result := some true },
                 { st with users := ul, activations := al })

/- ## SessionGuard and PermissionResolver (src/server.py class AuthorizationRequest) -/

/-- AuthorizationRequest.check_session (src/server.py lines 369-399): a non
accepted login is deleted and raises; a session aged at least T_SESSION is
deleted and raises SessionExpired; a session in the refresh window
(age at least T_SESSION - T_REFRESH) is rewritten in place with a fresh
random session id and timestamp now; otherwise nothing changes.  Nothing is
returned to the caller: the rotated id lives only in the store. -/
def check_session (s : Settings) (now : Int) (rand : String) (st : Store)
    (lo : LoginRow) : Except Exc Unit × Store :=
  if !(lo.status == LOGIN_ACCEPTED) then
    match deleteRows st.logins (fun l => l.user_id) lo.user_id with
    | .error e => (.error e, st)
    | .ok ll => (.error (.authenticationErr ("not a valid session")), { st with logins := ll })
  else if s.T_SESSION ≤ now - lo.created then
    match deleteRows st.logins (fun l => l.user_id) lo.user_id with
    | .error e => (.error e, st)
    | .ok ll => (.error (.authenticationErr ("authentication expired")), { st with logins := ll })
  else if s.T_SESSION - s.T_REFRESH ≤ now - lo.created then
    match updateRows st.logins (fun l => l.user_id) lo.user_id
        { lo with session_id := rand, created := now } with
    | .error e => (.error e, st)
    | .ok ll => (.ok (), { st with logins := ll })
  else
    (.ok (), st)

/-- AuthorizationRequest.get_role_by_uid (src/server.py lines 421-432): loads
the user by id (a missing row leaves a phantom entity whose `role_id` access
raises AttributeError) and builds the Role entity from its role_id. -/
def get_role_by_uid (st : Store) (uid : Nat) : Except Exc RoleEnt :=
  match userGetE st uid with
  | .error e => .error e
  | .ok none => .error (.attrErr ("User instance has no attributes"))
  | .ok (some u) => roleNewE st (some u.role_id)

/-- AuthorizationRequest.do_process (src/server.py lines 344-367): a truthy
session id must resolve to a login row and pass check_session, and the role is
the authenticated user's; a falsy session id resolves against ROLE_ANONYMOUS.
The response result is the membership of the requested object id in the
resolved permission list; the sid field of the response is never touched. -/
def authorization_do_process (s : Settings) (now : Int) (rand : String)
    (st : Store) (data : ReqData) : Except Exc ReqData × Store :=
  match data.sid with
  | none => (.error (.keyErr ("sid")), st)
  | some sid =>
  match data.oid with
  | none => (.error (.keyErr ("oid")), st)
  | some oid =>
    if !(sid == "") then
      match loginsBySid st sid with
      | [] => (.error (.authenticationErr ("authentication expired")), st)
      | lo :: _ =>
        match check_session s now rand st lo with
        | (.error e, st1) => (.error e, st1)
        | (.ok _, st1) =>
          match get_role_by_uid st1 lo.user_id with
          | .error e => (.error e, st1)
          | .ok role =>
            match get_permissions_by_role st1 (st1.roles.length + 1) role with
            | .error e => (.error e, st1)
            | .ok perms =>
              (.ok { data with result := some (perms.contains oid) }, st1)
    else
      match roleNewE st (some ROLE_ANONYMOUS) with
      | .error e => (.error e, st)
      | .ok role =>
        match get_permissions_by_role st (st.roles.length + 1) role with
        | .error e => (.error e, st)
        | .ok perms =>
          (.ok { data with result := some (perms.contains oid) }, st)

/- ## LogoutRequest and the dispatcher -/

/-- LogoutRequest.do_process (src/server.py lines 441-453): a truthy Login row
with accepted status is deleted and the request succeeds; otherwise the flow
raises PySAAError. -/
def logout_do_process (st : Store) (data : ReqData) : Except Exc ReqData × Store :=
  match data.sid with
  | none => (.error (.keyErr ("sid")), st)
  | some sid =>
  match loginsBySid st sid with
  | lo :: _ =>
    if loginTruthy lo && (lo.status == LOGIN_ACCEPTED) then
      match deleteRows st.logins (fun l => l.user_id) lo.user_id with
      | .error e => (.error e, st)
      | .ok ll => (.ok { data with result := some true }, { st with logins := ll })
    else
      (.error (.pysaaErr ("user not authenticated or authentication expired")), st)
  | [] => (.error (.pysaaErr ("user not authenticated or authentication expired")), st)

/-- REQUEST_CLASSES dispatch (src/server.py lines 485-492): the request type
tag picks the flow; unknown tags reach DefaultRequest, which raises
PySAAError. -/
def run_flow (s : Settings) (now : Int) (rand : String) (data : ReqData)
    (st : Store) : Except Exc ReqData × Store :=
  match data.rtype with
  | "register" => registration_do_process s now rand st data
  | "activate" => activation_do_process s now st data
  | "login" => authentication_do_process s now rand st data
  | "authorize" => authorization_do_process s now rand st data
  | "logout" => logout_do_process st data
  | _ => (.error (.pysaaErr ("Unrecognized Request type")), st)

/-- The in_trx argument of the dbconn decorator on each do_process:
True everywhere (src/server.py lines 90, 174, 226, 441) except the authorize
flow, which is decorated `@dbconn(in_trx=False)` (src/server.py line 344).
DefaultRequest is not decorated at all but touches no store. -/
def request_in_trx (t : String) : Bool :=
  match t with
  | "authorize" => false
  | _ => true

/-- Observable trace of one run of a dbconn-wrapped do_process
(src/dbapi.py lines 14-47). -/
structure DbRun where
  retDict : Option ReqData
  retFalse : Bool
  raised : Option Exc
  didCommit : Bool
  didRollback : Bool
  committed : Store
deriving Repr, DecidableEq

/-- The dbconn decorator (src/dbapi.py lines 14-47): a normal return commits
the working store; DbError is caught, rolled back only when in_trx is True,
and turned into a returned False; every other exception propagates with
neither commit nor rollback.  `committed` is the durable store after the
wrapper closed the connection: only a commit makes the working changes
visible, so on every error path it is the store the flow started from. -/
def dbconn_run (in_trx : Bool)
    (flow : Store → Except Exc ReqData × Store) (st : Store) : DbRun :=
  match flow st with
  | (.ok d, st1) =>
    { retDict := some d, retFalse := false, raised := none
    , didCommit := true, didRollback := false, committed := st1 }
  | (.error e, _) =>
    if isDbErr e then
      { retDict := none, retFalse := true, raised := none
      , didCommit := false, didRollback := in_trx, committed := st }
    else
      { retDict := none, retFalse := false, raised := some e
      , didCommit := false, didRollback := false, committed := st }

/-- What a call to PySAAServer.handle_request does, seen from the caller. -/
inductive HandleOutcome where
  | returns (d : ReqData)
  | returnsFalse
  | unboundLocal
  | uncaught (e : Exc)
deriving Repr, DecidableEq

/-- PySAAServer.handle_request (src/server.py lines 502-535): dispatches to
the dbconn-wrapped flow.  A normal return is handed back; a swallowed DbError
makes the wrapper return False, which handle_request passes through; a
PySAAError reaches the `except PySAAError` handler whose first statement
`response[..] = ..` reads the local `response` that was only ever assigned
inside the try block, raising UnboundLocalError; any other exception
propagates uncaught. -/
def handle_request (s : Settings) (now : Int) (rand : String) (st : Store)
    (data : ReqData) : HandleOutcome × Store :=
  let run := dbconn_run (request_in_trx data.rtype) (run_flow s now rand data) st
  match run.raised with
  | some e =>
    if isPySAA e then (.unboundLocal, run.committed)
    else (.uncaught e, run.committed)
  | none =>
    match run.retDict with
    | some d => (.returns d, run.committed)
    | none => (.returnsFalse, run.committed)

/- ## Concrete fixtures used by the claim theorems and witnesses -/

/-- Role tree root(1) -> A(2) -> B(3) with grants root:public, A:dashboard,
B:admin, the example of the specification. -/
def c1Store : Store :=
  { users := [], activations := [], logins := []
  , roles := [⟨1, none⟩, ⟨2, some 1⟩, ⟨3, some 2⟩]
  , permissions := [⟨1, 1, "public"⟩, ⟨2, 2, "dashboard"⟩, ⟨3, 3, "admin"⟩] }

/-- An active user with a stored refused login, counter 2, last attempt at 99. -/
def c2wUser : UserRow := ⟨1, "w@x.d", "pw", 1, 2⟩

/-- The stored Session row for the C2 witness. -/
def c2wLogin : LoginRow := ⟨1, "", 0, 2, 99⟩

/-- Store for the C2 witness. -/
def c2wStore : Store :=
  { users := [c2wUser], activations := [], logins := [c2wLogin]
  , roles := [], permissions := [] }

/-- Login request with the wrong password for the C2 witness. -/
def c2wData : ReqData :=
  { rtype := "login", email := some "w@x.d", pwd := some "badpw", aid := none
  , sid := none, oid := none, result := none, error := none }

/-- Store with one accepted session created at time 0 for user 1. -/
def c3Store : Store :=
  { users := [⟨1, "u@e.c", "pw", 1, 1⟩], activations := []
  , logins := [⟨1, "oldsid", 1, 0, 0⟩]
  , roles := [⟨1, none⟩], permissions := [⟨1, 1, "home"⟩] }

/-- Authorize request presenting the session id "oldsid". -/
def c3Data : ReqData :=
  { rtype := "authorize", email := none, pwd := none, aid := none
  , sid := some "oldsid", oid := some "home", result := none, error := none }

/-- The store after the rotation performed by check_session at time 7000. -/
def c3StoreAfter : Store :=
  { c3Store with logins := [⟨1, "newsid", 1, 0, 7000⟩] }

/-- Store with an anonymous role granting the object "home". -/
def c4Store : Store :=
  { users := [], activations := [], logins := []
  , roles := [⟨1, none⟩], permissions := [⟨1, 1, "home"⟩] }

/-- An authorize request with an empty session id for a granted object. -/
def c4DataOk : ReqData :=
  { rtype := "authorize", email := none, pwd := none, aid := none
  , sid := some "", oid := some "home", result := none, error := none }

/-- A login request for an email that is not registered in c4Store. -/
def c4DataBad : ReqData :=
  { rtype := "login", email := some "nobody@x.d", pwd := some "p", aid := none
  , sid := none, oid := none, result := none, error := none }

/-- An active registered user with a stored session row. -/
def c5Store : Store :=
  { users := [⟨1, "m@x.d", "goodpw", 1, 2⟩], activations := []
  , logins := [⟨1, "s", 1, 0, 90⟩], roles := [], permissions := [] }

/-- A login request carrying a non matching password. -/
def c5Data : ReqData :=
  { rtype := "login", email := some "m@x.d", pwd := some "badpw", aid := none
  , sid := none, oid := none, result := none, error := none }

/-- A blocked user for claim C6. -/
def c6User : UserRow := ⟨1, "b@x.d", "pw", 2, 2⟩

/-- The Session row recording the last refused attempt at time 95. -/
def c6Login : LoginRow := ⟨1, "", 0, 0, 95⟩

/-- Store with a blocked account whose last attempt is inside the block
window at time 100. -/
def c6Store : Store :=
  { users := [c6User], activations := [], logins := [c6Login]
  , roles := [], permissions := [] }

/-- A login request with the correct password for the blocked account. -/
def c6Data : ReqData :=
  { rtype := "login", email := some "b@x.d", pwd := some "pw", aid := none
  , sid := none, oid := none, result := none, error := none }

/-- An inactive user awaiting activation, for the C7 witness. -/
def c7wUser : UserRow := ⟨1, "i7@x.d", "pw", 0, 2⟩

/-- The pending activation token created at time 10. -/
def c7wAct : ActRow := ⟨1, "tok7", 10⟩

/-- Store for the C7 witness. -/
def c7wStore : Store :=
  { users := [c7wUser], activations := [c7wAct], logins := []
  , roles := [], permissions := [] }

/-- Activation request presenting the token of c7wStore. -/
def c7wData : ReqData :=
  { rtype := "activate", email := none, pwd := none, aid := some "tok7"
  , sid := none, oid := none, result := none, error := none }

/-- An inactive user whose registration is being repeated. -/
def c8User : UserRow := ⟨1, "i@x.d", "old", 0, 2⟩

/-- The activation token of c8User, created at time 0. -/
def c8Act : ActRow := ⟨1, "tok", 0⟩

/-- Store with an inactive user and a token whose age at time 86400 is
exactly the activation TTL. -/
def c8aStore : Store :=
  { users := [c8User], activations := [c8Act], logins := []
  , roles := [], permissions := [] }

/-- Store with an inactive user and no activation token at all. -/
def c8bStore : Store :=
  { users := [c8User], activations := [], logins := []
  , roles := [], permissions := [] }

/-- Registration request repeating the email of c8User. -/
def c8Data : ReqData :=
  { rtype := "register", email := some "i@x.d", pwd := some "newpw", aid := none
  , sid := none, oid := none, result := none, error := none }

/-- An arbitrary store for the C9 decorator runs. -/
def c9Store : Store :=
  { users := [⟨1, "t@x.d", "pw", 1, 2⟩], activations := [], logins := []
  , roles := [], permissions := [] }

/-- A response payload returned by the successful C9 flow. -/
def c9Data : ReqData :=
  { rtype := "login", email := some "t@x.d", pwd := none, aid := none
  , sid := some "sid9", oid := none, result := some true, error := none }

/-- A do_process body that returns normally. -/
def c9FlowOk : Store → Except Exc ReqData × Store :=
  fun st => (.ok c9Data, st)

/-- A do_process body that raises DbError (a store failure). -/
def c9FlowDb : Store → Except Exc ReqData × Store :=
  fun st => (.error (.dbErr ("store failure")), st)

/-- A do_process body that raises a domain error. -/
def c9FlowPy : Store → Except Exc ReqData × Store :=
  fun st => (.error (.authenticationErr ("domain failure")), st)

/-- A blocked user with no Session row at all, for the C10 witness. -/
def c10wUser : UserRow := ⟨1, "c@x.d", "pw", 2, 2⟩

/-- Store for the C10 witness: the blocked account has no login row. -/
def c10wStore : Store :=
  { users := [c10wUser], activations := [], logins := []
  , roles := [], permissions := [] }

/- ## Helper lemmas on keyed row lists -/

/-- Rewriting every keyed row of a list and filtering by the key again keeps
exactly one copy of the new row per previously matching row. -/
theorem filter_map_ite {α : Type} (rows : List α) (p : α → Bool) (nu : α)
    (hnu : p nu = true) :
    (rows.map (fun x => if p x then nu else x)).filter p
      = (rows.filter p).map (fun _ => nu) := by
  induction rows with
  | nil => rfl
  | cons a t ih =>
    cases h : p a with
    | true => simp [List.filter_cons, h, hnu, ih]
    | false => simp [List.filter_cons, h, hnu, ih]

/-- After removing the rows matched by q, nothing matched by p survives when
every p-row was a q-row. -/
theorem filter_filter_not {α : Type} (l : List α) (p q : α → Bool)
    (h : ∀ x ∈ l, p x = true → q x = true) :
    (l.filter (fun x => !(q x))).filter p = [] := by
  induction l with
  | nil => rfl
  | cons a t ih =>
    have ht : ∀ x ∈ t, p x = true → q x = true :=
      fun x hx => h x (List.mem_cons_of_mem a hx)
    cases hq : q a with
    | true => simp [List.filter_cons, hq, ih ht]
    | false =>
      have hp : p a = false := by
        cases hpa : p a
        · rfl
        · have := h a (List.mem_cons_self a t) hpa
          rw [hq] at this
          exact absurd this (by simp)
      simp [List.filter_cons, hq, hp, ih ht]

/-- A filter that produced a singleton pins down every matching member. -/
theorem filter_singleton_all {α : Type} (l : List α) (p : α → Bool) (a : α)
    (h : l.filter p = [a]) : ∀ x ∈ l, p x = true → x = a := by
  intro x hx hpx
  have hm : x ∈ l.filter p := List.mem_filter.mpr ⟨hx, hpx⟩
  rw [h] at hm
  simpa using hm

/- ## Claim theorems -/

/-- C1: on the specification's own example tree root(1)->A(2)->B(3) with
grants root:public, A:dashboard, B:admin, the resolver of
get_permissions_by_role returns only [admin, dashboard] for role B and only
[dashboard] for role A: the grants of the topmost ancestor (the role whose
parent link is NULL) are never collected for a descendant, although the root
resolves to [public] when queried directly.  This contradicts the claim that
every ancestor's grants up to the root are included. -/
theorem c1_resolver_drops_root_grants :
    get_permissions_by_role c1Store 4 { rid := some 3, parent_id := some 2 }
      = .ok (["admin", "dashboard"]) ∧
    get_permissions_by_role c1Store 4 { rid := some 2, parent_id := some 1 }
      = .ok (["dashboard"]) ∧
    get_permissions_by_role c1Store 4 { rid := some 1, parent_id := none }
      = .ok (["public"]) := by
  refine ⟨?_, ?_, ?_⟩ <;> rfl

/-- C3: an authorize call at time 7000 on a session created at time 0
(TTL 7200, refresh threshold 300, so the session is inside the refresh
window) persists a rotated session id "newsid" with a refreshed timestamp,
but the response still carries the presented id "oldsid", which no longer
matches any stored session.  The new session id is not returned to the
caller, contradicting the claim. -/
theorem c3_refresh_rotation_not_returned :
    authorization_do_process defaultSettings 7000 "newsid" c3Store c3Data
      = (.ok { c3Data with result := some true }, c3StoreAfter) ∧
    ({ c3Data with result := some true }).sid = some "oldsid" ∧
    loginsBySid c3StoreAfter "oldsid" = [] ∧
    loginsBySid c3StoreAfter "newsid" = [⟨1, "newsid", 1, 0, 7000⟩] := by
  refine ⟨?_, ?_, ?_, ?_⟩ <;> rfl

/-- C4: a successful flow is returned as its own payload with result True,
but when the selected flow raises a domain error (here: login for an email
that is not registered) handle_request does not return a normalized mapping:
the `except PySAAError` handler assigns into the local `response` that was
never bound, so the call raises UnboundLocalError. -/
theorem c4_dispatcher_unbound_local :
    handle_request defaultSettings 100 "r" c4Store c4DataOk
      = (.returns { c4DataOk with result := some true }, c4Store) ∧
    handle_request defaultSettings 100 "r" c4Store c4DataBad
      = (.unboundLocal, c4Store) := by
  constructor <;> rfl

/-- C5: a login request with a non matching password returns an ordinary
result-False response, and that response still carries the submitted
password under the pwd key: the flow deletes the password from the response
only on the success path. -/
theorem c5_failed_login_echoes_password :
    (authentication_do_process defaultSettings 100 "r" c5Store c5Data).1
      = .ok { c5Data with result := some false } ∧
    ({ c5Data with result := some false }).pwd = some "badpw" := by
  constructor <;> rfl

/-- C6 counterexample: a login attempt at time 100 against an account with
status Blocked whose Session row records a last attempt at time 95 (inside
the 900s block window) raises AuthenticationError instead of returning a
result-False response, refuting the claim that a blocked login is an
ordinary non-raising failure outcome. -/
theorem c6_blocked_login_raises_counterexample :
    authentication_do_process defaultSettings 100 "r" c6Store c6Data
      = (.error (.authenticationErr ("user is temporally blocked, try later")), c6Store) := by
  rfl

/-- C8 counterexample: re-registering the inactive user of c8aStore at time
86400, when the stored token's age is exactly the activation TTL, fails with
PendingActivation although the claim says an age that has reached the TTL
lets the registration succeed; and re-registering the inactive user of
c8bStore, which has no token at all, crashes with AttributeError (the fresh
Activation entity loaded by a missing id has no id attribute when saved)
instead of succeeding. -/
theorem c8_reregistration_counterexample :
    (registration_do_process defaultSettings 86400 "fresh" c8aStore c8Data).1
      = .error (.registrationErr ("user already registered but not activated")) ∧
    (registration_do_process defaultSettings 86400 "fresh" c8bStore c8Data).1
      = .error (.attrErr ("Activation instance has no id attribute")) := by
  constructor <;> rfl

/-- C9 counterexample: the authorize flow is decorated with in_trx=False, so
a store error raised inside it is not rolled back by the dbconn wrapper; and
a domain error in an in_trx=True flow (login) is not caught by the wrapper
at all, so neither commit nor rollback runs.  This refutes the claim that
every flow's mutations are wrapped in a transaction that is rolled back on
any domain or store error. -/
theorem c9_transaction_counterexample :
    request_in_trx ("authorize") = false ∧
    (dbconn_run (request_in_trx ("authorize")) c9FlowDb c9Store).didRollback = false ∧
    (dbconn_run (request_in_trx ("login")) c9FlowPy c9Store).didRollback = false ∧
    (dbconn_run (request_in_trx ("login")) c9FlowPy c9Store).didCommit = false := by
  refine ⟨?_, ?_, ?_, ?_⟩ <;> rfl

/-- C10: on a login attempt by a blocked account, when the Session lookup
yields no row or a row all of whose values are falsy, check_user sets the
account back to Active in the store and returns it so the credential check
proceeds; and the TemporarilyBlocked error can only arise from an existing
truthy Session row whose last-attempt age is at most the block duration. -/
theorem c10_blocked_empty_login_unblocks (s : Settings) (now : Int)
    (st : Store) (user : UserRow) (lo : Option LoginRow)
    (hb : user.status = STATUS_BLOCKED)
    (hget : loginGetE st user.user_id = .ok lo)
    (hup : usersWithId st user.user_id = [user]) :
    (optLoginTruthy lo = false →
      auth_check_user s now st user =
        (.ok { user with status := STATUS_ACTIVE },
         { st with users := st.users.map (fun u =>
             if u.user_id == user.user_id then { user with status := STATUS_ACTIVE } else u) })) ∧
    ((auth_check_user s now st user).1
        = .error (.authenticationErr ("user is temporally blocked, try later")) →
      ∃ l, lo = some l ∧ loginTruthy l = true ∧ now - l.created ≤ s.T_BLOCKED) := by
  have h0 : (user.status == STATUS_INACTIVE) = false := by
    simp [hb, STATUS_INACTIVE, STATUS_BLOCKED]
  have h2 : (user.status == STATUS_BLOCKED) = true := by simp [hb]
  have hup' : st.users.filter (fun u => u.user_id == user.user_id) = [user] := hup
  have hupd : updateRows st.users (fun u => u.user_id) user.user_id
      { user with status := STATUS_ACTIVE }
      = .ok (st.users.map (fun u =>
          if u.user_id == user.user_id then { user with status := STATUS_ACTIVE } else u)) := by
    unfold updateRows
    rw [hup']
  constructor
  · intro hf
    cases lo with
    | none =>
      simp only [auth_check_user, h0, h2, hget, Bool.false_eq_true, if_false, if_true, hupd]
    | some l =>
      have hlf : loginTruthy l = false := by simpa [optLoginTruthy] using hf
      simp only [auth_check_user, h0, h2, hget, hlf, Bool.false_and,
        Bool.false_eq_true, if_false, if_true, hupd]
  · intro herr
    cases lo with
    | none =>
      simp only [auth_check_user, h0, h2, hget, Bool.false_eq_true, if_false,
        if_true, hupd] at herr
      exact absurd herr (by simp)
    | some l =>
      cases hlt : loginTruthy l with
      | false =>
        simp only [auth_check_user, h0, h2, hget, hlt, Bool.false_and,
          Bool.false_eq_true, if_false, if_true, hupd] at herr
        exact absurd herr (by simp)
      | true =>
        by_cases hw : now - l.created ≤ s.T_BLOCKED
        · exact ⟨l, rfl, hlt, hw⟩
        · simp only [auth_check_user, h0, h2, hget, hlt, Bool.true_and,
            decide_eq_true_eq, hw, Bool.false_eq_true, if_false, if_true,
            hupd, decide_eq_false hw] at herr
          exact absurd herr (by simp)

/-- C6 (amended): a login attempt against an account whose status is Blocked
and whose truthy Session row records a last attempt within the block
duration raises AuthenticationError (the TemporarilyBlocked domain error)
and aborts the flow, rather than returning an ordinary result-False
response. -/
theorem c6_blocked_login_raises (s : Settings) (now : Int) (rand : String)
    (st : Store) (data : ReqData) (email password : String)
    (user : UserRow) (l : LoginRow)
    (he : data.email = some email) (hp : data.pwd = some password)
    (hu : usersByEmail st email = [user])
    (hb : user.status = STATUS_BLOCKED)
    (hl : loginsOfUser st user.user_id = [l])
    (hlt : loginTruthy l = true)
    (hrecent : now - l.created ≤ s.T_BLOCKED) :
    authentication_do_process s now rand st data =
      (.error (.authenticationErr ("user is temporally blocked, try later")), st) := by
  have h0 : (user.status == STATUS_INACTIVE) = false := by
    simp [hb, STATUS_INACTIVE, STATUS_BLOCKED]
  have h2 : (user.status == STATUS_BLOCKED) = true := by simp [hb]
  have hget : loginGetE st user.user_id = .ok (some l) := by
    unfold loginGetE
    rw [hl]
  simp only [authentication_do_process, he, hp, hu, auth_check_user, h0, h2,
    hget, hlt, Bool.true_and, decide_eq_true hrecent, Bool.false_eq_true,
    if_false, if_true]

/-- C2: a login attempt against a registered account that passes the status
gate (status Active) with a non matching password follows exactly the
claimed counter policy: a stored counter 0 becomes 1 unconditionally; a
nonzero counter within the retry window is incremented, and on reaching the
maximum the account is set Blocked and the counter reset to 0; a nonzero
counter outside the window is left unchanged.  A Session row with status
Refused, the computed counter and timestamp now is persisted, and the flow
returns result False without raising. -/
theorem c2_wrong_password_counter_policy (s : Settings) (now : Int)
    (rand : String) (st : Store) (data : ReqData) (email password : String)
    (user : UserRow) (l : LoginRow)
    (he : data.email = some email) (hp : data.pwd = some password)
    (hu : usersByEmail st email = [user])
    (hactive : user.status = STATUS_ACTIVE)
    (hl : loginsOfUser st user.user_id = [l])
    (hlt : loginTruthy l = true)
    (hw : user.password ≠ password)
    (huid : usersWithId st user.user_id = [user]) :
    ∃ st1,
      authentication_do_process s now rand st data
        = (.ok { data with result := some false }, st1) ∧
      ((l.attempts = 0 →
         loginsOfUser st1 user.user_id = [⟨user.user_id, "", LOGIN_REFUSED, 1, now⟩] ∧
         usersWithId st1 user.user_id = [user]) ∧
       (l.attempts ≠ 0 → now - l.created ≤ s.T_LOGIN → l.attempts + 1 < s.MAX_ATTEMPTS →
         loginsOfUser st1 user.user_id = [⟨user.user_id, "", LOGIN_REFUSED, l.attempts + 1, now⟩] ∧
         usersWithId st1 user.user_id = [user]) ∧
       (l.attempts ≠ 0 → now - l.created ≤ s.T_LOGIN → s.MAX_ATTEMPTS ≤ l.attempts + 1 →
         loginsOfUser st1 user.user_id = [⟨user.user_id, "", LOGIN_REFUSED, 0, now⟩] ∧
         usersWithId st1 user.user_id = [{ user with status := STATUS_BLOCKED }]) ∧
       (l.attempts ≠ 0 → s.T_LOGIN < now - l.created →
         loginsOfUser st1 user.user_id = [⟨user.user_id, "", LOGIN_REFUSED, l.attempts, now⟩] ∧
         usersWithId st1 user.user_id = [user])) := by
  have h0 : (user.status == STATUS_INACTIVE) = false := by
    simp [hactive, STATUS_INACTIVE, STATUS_ACTIVE]
  have h2 : (user.status == STATUS_BLOCKED) = false := by
    simp [hactive, STATUS_ACTIVE, STATUS_BLOCKED]
  have hget : loginGetE st user.user_id = .ok (some l) := by
    unfold loginGetE
    rw [hl]
  have hpw : (user.password == password) = false := by
    simp [hw]
  have hl' : st.logins.filter (fun x => x.user_id == user.user_id) = [l] := hl
  have huid' : st.users.filter (fun x => x.user_id == user.user_id) = [user] := huid
  have hlog : ∀ n : Nat,
      (st.logins.map (fun r => if r.user_id == user.user_id then
          (⟨user.user_id, "", LOGIN_REFUSED, n, now⟩ : LoginRow) else r)).filter
        (fun r => r.user_id == user.user_id)
        = [⟨user.user_id, "", LOGIN_REFUSED, n, now⟩] := by
    intro n
    rw [filter_map_ite _ _ _ (by simp), hl']
    rfl
  have huser2 : ∀ nu : UserRow, (nu.user_id == user.user_id) = true →
      (st.users.map (fun r => if r.user_id == user.user_id then nu else r)).filter
        (fun r => r.user_id == user.user_id) = [nu] := by
    intro nu hnu
    rw [filter_map_ite st.users (fun r => r.user_id == user.user_id) nu hnu, huid']
    rfl
  have hsave : ∀ (stx : Store) (n : Nat), stx.logins = st.logins →
      save_login now rand stx user LOGIN_REFUSED n =
        .ok (⟨user.user_id, "", LOGIN_REFUSED, n, now⟩,
          { stx with logins := st.logins.map (fun r =>
              if r.user_id == user.user_id then
                (⟨user.user_id, "", LOGIN_REFUSED, n, now⟩ : LoginRow) else r) }) := by
    intro stx n hx
    unfold save_login loginGetE loginsOfUser updateRows
    rw [hx, hl']
    rfl
  by_cases ha0 : l.attempts = 0
  · refine ⟨{ st with logins := st.logins.map (fun r =>
        if r.user_id == user.user_id then
          (⟨user.user_id, "", LOGIN_REFUSED, 1, now⟩ : LoginRow) else r) }, ?_, ?_⟩
    · simp only [authentication_do_process, he, hp, hu, auth_check_user, h0, h2,
        Bool.false_eq_true, if_false, hget, hlt, if_true, hpw, ha0]
      rw [hsave st 1 rfl]
      rfl
    · refine ⟨fun _ => ⟨hlog 1, huid'⟩, ?_, ?_, ?_⟩
      · intro hne
        exact absurd ha0 hne
      · intro hne
        exact absurd ha0 hne
      · intro hne
        exact absurd ha0 hne
  · have hb0 : (l.attempts == 0) = false := by
      simp [ha0]
    by_cases htime : now - l.created ≤ s.T_LOGIN
    · by_cases hmax : s.MAX_ATTEMPTS ≤ l.attempts + 1
      · have hupd : updateRows st.users (fun u => u.user_id) user.user_id
            { user with status := STATUS_BLOCKED }
            = .ok (st.users.map (fun u => if u.user_id == user.user_id then
                { user with status := STATUS_BLOCKED } else u)) := by
          unfold updateRows
          rw [huid']
        refine ⟨{ st with
            users := st.users.map (fun u => if u.user_id == user.user_id then
              { user with status := STATUS_BLOCKED } else u)
          , logins := st.logins.map (fun r => if r.user_id == user.user_id then
              (⟨user.user_id, "", LOGIN_REFUSED, 0, now⟩ : LoginRow) else r) }, ?_, ?_⟩
        · simp only [authentication_do_process, he, hp, hu, auth_check_user, h0, h2,
            Bool.false_eq_true, if_false, hget, hlt, if_true, hpw, hb0, htime, hmax,
            hupd]
          rw [hsave { st with users := st.users.map (fun u =>
              if u.user_id == user.user_id then { user with status := STATUS_BLOCKED } else u) } 0 rfl]
        · refine ⟨?_, ?_, fun _ _ _ => ⟨hlog 0, huser2 _ (by simp)⟩, ?_⟩
          · intro h
            exact absurd h ha0
          · intro _ _ hlt2
            exact absurd hmax (by omega)
          · intro _ hgt
            exact absurd htime (by omega)
      · refine ⟨{ st with logins := st.logins.map (fun r =>
            if r.user_id == user.user_id then
              (⟨user.user_id, "", LOGIN_REFUSED, l.attempts + 1, now⟩ : LoginRow) else r) }, ?_, ?_⟩
        · simp only [authentication_do_process, he, hp, hu, auth_check_user, h0, h2,
            Bool.false_eq_true, if_false, hget, hlt, if_true, hpw, hb0, htime, hmax]
          rw [hsave st (l.attempts + 1) rfl]
        · refine ⟨?_, fun _ _ _ => ⟨hlog (l.attempts + 1), huid'⟩, ?_, ?_⟩
          · intro h
            exact absurd h ha0
          · intro _ _ hge
            exact absurd hge hmax
          · intro _ hgt
            exact absurd htime (by omega)
    · refine ⟨{ st with logins := st.logins.map (fun r =>
          if r.user_id == user.user_id then
            (⟨user.user_id, "", LOGIN_REFUSED, l.attempts, now⟩ : LoginRow) else r) }, ?_, ?_⟩
      · simp only [authentication_do_process, he, hp, hu, auth_check_user, h0, h2,
          Bool.false_eq_true, if_false, hget, hlt, if_true, hpw, hb0, htime]
        rw [hsave st l.attempts rfl]
      · refine ⟨?_, ?_, ?_, fun _ _ => ⟨hlog l.attempts, huid'⟩⟩
        · intro h
          exact absurd h ha0
        · intro _ hle
          exact absurd hle htime
        · intro _ hle
          exact absurd hle htime

/-- C7: for an activation request whose token is found and whose owning
account exists (and is truthy), a token age of at least the activation TTL
deletes both the token and the account and fails with ActivationExpired,
while a younger token sets the account Active, deletes the token and
succeeds. -/
theorem c7_activation_outcomes (s : Settings) (now : Int) (st : Store)
    (data : ReqData) (aid : String) (act : ActRow) (user : UserRow)
    (ha : data.aid = some aid)
    (hacts : actsByAid st aid = [act])
    (hactsU : actsOfUser st act.user_id = [act])
    (hu : usersWithId st act.user_id = [user])
    (htr : userTruthy user = true) :
    (s.T_ACTIVATION ≤ now - act.created →
      ∃ st1, activation_do_process s now st data
          = (.error (.activationErr ("activation link expired")), st1) ∧
        actsByAid st1 aid = [] ∧ usersWithId st1 act.user_id = []) ∧
    (now - act.created < s.T_ACTIVATION →
      ∃ st1, activation_do_process s now st data
          = (.ok { data with result := some true }, st1) ∧
        actsByAid st1 aid = [] ∧
        usersWithId st1 act.user_id = [{ user with status := STATUS_ACTIVE }]) := by
  have hacts' : st.activations.filter (fun x => x.activation_id == aid) = [act] := hacts
  have hactsU' : st.activations.filter (fun x => x.user_id == act.user_id) = [act] := hactsU
  have hu' : st.users.filter (fun x => x.user_id == act.user_id) = [user] := hu
  have huid2 : user.user_id = act.user_id := by
    have hm : user ∈ st.users.filter (fun x => x.user_id == act.user_id) := by
      rw [hu']
      exact List.mem_singleton_self user
    have := (List.mem_filter.mp hm).2
    simpa using this
  have hu2 : st.users.filter (fun x => x.user_id == user.user_id) = [user] := by
    rw [huid2]
    exact hu'
  have hgetU : userGetE st act.user_id = .ok (some user) := by
    unfold userGetE usersWithId
    rw [hu']
  have hdelA : deleteRows st.activations (fun a => a.user_id) act.user_id
      = .ok (st.activations.filter (fun a => !(a.user_id == act.user_id))) := by
    unfold deleteRows
    rw [hactsU']
  have hdelU : deleteRows st.users (fun u => u.user_id) user.user_id
      = .ok (st.users.filter (fun u => !(u.user_id == user.user_id))) := by
    unfold deleteRows
    rw [hu2]
  have hupd : updateRows st.users (fun u => u.user_id) user.user_id
      { user with status := STATUS_ACTIVE }
      = .ok (st.users.map (fun u => if u.user_id == user.user_id then
          { user with status := STATUS_ACTIVE } else u)) := by
    unfold updateRows
    rw [hu2]
  have hsubA : ∀ x ∈ st.activations, (x.activation_id == aid) = true →
      (x.user_id == act.user_id) = true := by
    intro x hx hpx
    have hxa := filter_singleton_all st.activations
      (fun x => x.activation_id == aid) act hacts' x hx hpx
    rw [hxa]
    simp
  have hAnil : (st.activations.filter (fun a => !(a.user_id == act.user_id))).filter
      (fun a => a.activation_id == aid) = [] :=
    filter_filter_not st.activations (fun a => a.activation_id == aid)
      (fun a => a.user_id == act.user_id) hsubA
  constructor
  · intro hexp
    refine ⟨{ st with
        activations := st.activations.filter (fun a => !(a.user_id == act.user_id))
      , users := st.users.filter (fun u => !(u.user_id == user.user_id)) }, ?_, ?_, ?_⟩
    · simp only [activation_do_process, ha, hacts, hgetU, htr, Bool.not_true,
        Bool.false_eq_true, if_false, if_pos hexp, hdelA, hdelU]
    · exact hAnil
    · apply filter_filter_not
      intro x hx hpx
      rw [huid2]
      exact hpx
  · intro hyoung
    have hexp2 : ¬ s.T_ACTIVATION ≤ now - act.created := by omega
    refine ⟨{ st with
        users := st.users.map (fun u => if u.user_id == user.user_id then
          { user with status := STATUS_ACTIVE } else u)
      , activations := st.activations.filter (fun a => !(a.user_id == act.user_id)) }, ?_, ?_, ?_⟩
    · simp only [activation_do_process, ha, hacts, hgetU, htr, Bool.not_true,
        Bool.false_eq_true, if_false, if_neg hexp2, hupd, hdelA]
    · exact hAnil
    · show (st.users.map (fun u => if u.user_id == user.user_id then
          { user with status := STATUS_ACTIVE } else u)).filter
          (fun u => u.user_id == act.user_id) = [{ user with status := STATUS_ACTIVE }]
      rw [← huid2]
      rw [filter_map_ite st.users (fun u => u.user_id == user.user_id)
        { user with status := STATUS_ACTIVE } (by simp), hu2]
      rfl

/-- C8 (amended): re-registering a known email whose account is Inactive
fails with PendingActivation exactly when a truthy activation token exists
whose age is at most (not strictly less than) the activation TTL; with a
token strictly older than the TTL the registration succeeds, updating the
stored password and overwriting the token row with a fresh token; with no
token row at all the flow does not succeed but crashes with AttributeError,
because the fresh Activation entity fetched by a missing id never received
an id attribute and `save` reads it. -/
theorem c8_reregistration_amended (s : Settings) (now : Int) (rand : String)
    (st : Store) (data : ReqData) (email password : String) (user : UserRow)
    (he : data.email = some email) (hp : data.pwd = some password)
    (hu : usersByEmail st email = [user])
    (hst : user.status = STATUS_INACTIVE)
    (huid : usersWithId st user.user_id = [user]) :
    (∀ act, actsOfUser st user.user_id = [act] → actTruthy act = true →
       now - act.created ≤ s.T_ACTIVATION →
       registration_do_process s now rand st data
         = (.error (.registrationErr ("user already registered but not activated")), st)) ∧
    (∀ act, actsOfUser st user.user_id = [act] → actTruthy act = true →
       s.T_ACTIVATION < now - act.created →
       ∃ st1, registration_do_process s now rand st data
           = (.ok { data with result := some true, pwd := none }, st1) ∧
         usersWithId st1 user.user_id = [{ user with password := password }] ∧
         actsOfUser st1 user.user_id
           = [{ user_id := user.user_id, activation_id := rand, created := now }]) ∧
    (actsOfUser st user.user_id = [] →
       (registration_do_process s now rand st data).1
         = .error (.attrErr ("Activation instance has no id attribute"))) := by
  have h0 : (user.status == STATUS_INACTIVE) = true := by simp [hst]
  have huid' : st.users.filter (fun x => x.user_id == user.user_id) = [user] := huid
  have hupdPw : updateRows st.users (fun u => u.user_id) user.user_id
      { user with password := password }
      = .ok (st.users.map (fun u => if u.user_id == user.user_id then
          { user with password := password } else u)) := by
    unfold updateRows
    rw [huid']
  refine ⟨?_, ?_, ?_⟩
  · intro act hact htr hle
    have hget : actGetE st user.user_id = .ok (some act) := by
      unfold actGetE
      rw [hact]
    simp only [registration_do_process, he, hp, hu, registration_check_user, h0,
      Bool.not_true, Bool.false_eq_true, if_false, hget, htr, Bool.true_and,
      decide_eq_true hle, if_true]
  · intro act hact htr hgt
    have hact' : st.activations.filter (fun x => x.user_id == user.user_id) = [act] := hact
    have hget : actGetE st user.user_id = .ok (some act) := by
      unfold actGetE
      rw [hact]
    have hnle : ¬ (now - act.created ≤ s.T_ACTIVATION) := by omega
    have hna : ∀ stx : Store, stx.activations = st.activations →
        new_activation now rand stx user.user_id
          = .ok { stx with activations := st.activations.map (fun a =>
              if a.user_id == user.user_id then
                (⟨user.user_id, rand, now⟩ : ActRow) else a) } := by
      intro stx hx
      unfold new_activation actGetE actsOfUser updateRows
      rw [hx, hact']
    refine ⟨{ st with
        users := st.users.map (fun u => if u.user_id == user.user_id then
          { user with password := password } else u)
      , activations := st.activations.map (fun a => if a.user_id == user.user_id then
          (⟨user.user_id, rand, now⟩ : ActRow) else a) }, ?_, ?_, ?_⟩
    · simp only [registration_do_process, he, hp, hu, registration_check_user, h0,
        Bool.not_true, Bool.false_eq_true, if_false, hget, htr, Bool.true_and,
        decide_eq_false hnle, hupdPw]
      rw [hna { st with users := st.users.map (fun u => if u.user_id == user.user_id then
          { user with password := password } else u) } rfl]
    · show (st.users.map (fun u => if u.user_id == user.user_id then
          { user with password := password } else u)).filter
          (fun u => u.user_id == user.user_id) = [{ user with password := password }]
      rw [filter_map_ite st.users (fun u => u.user_id == user.user_id)
        { user with password := password } (by simp), huid']
      rfl
    · show (st.activations.map (fun a => if a.user_id == user.user_id then
          (⟨user.user_id, rand, now⟩ : ActRow) else a)).filter
          (fun a => a.user_id == user.user_id)
          = [{ user_id := user.user_id, activation_id := rand, created := now }]
      rw [filter_map_ite st.activations (fun a => a.user_id == user.user_id)
        (⟨user.user_id, rand, now⟩ : ActRow) (by simp), hact']
      rfl
  · intro hnil
    have hget : actGetE st user.user_id = .ok none := by
      unfold actGetE
      rw [hnil]
    have hna : new_activation now rand { st with users := st.users.map (fun u =>
        if u.user_id == user.user_id then { user with password := password } else u) }
        user.user_id = .error (.attrErr ("Activation instance has no id attribute")) := by
      unfold new_activation actGetE actsOfUser
      have hx : ({ st with users := st.users.map (fun u =>
          if u.user_id == user.user_id then { user with password := password } else u) } : Store).activations
          = st.activations := rfl
      rw [hx]
      have hnil' : st.activations.filter (fun x => x.user_id == user.user_id) = [] := hnil
      rw [hnil']
    simp only [registration_do_process, he, hp, hu, registration_check_user, h0,
      Bool.not_true, Bool.false_eq_true, if_false, hget, hupdPw, hna]

/-- C9 (amended): the flows decorated in_trx=True (register, activate, login,
logout) run inside a dbconn transaction that rolls back on a store (Db)
error and commits on a normal return; the authorize flow is decorated
in_trx=False, so no rollback is issued when it raises a store error; and a
domain error is not caught by the wrapper in any flow: it propagates with
neither commit nor rollback, the uncommitted mutations being discarded only
because the connection closes without a commit. -/
theorem c9_transaction_amended
    (fOk fDb fPy : Store → Except Exc ReqData × Store) (st : Store)
    (d : ReqData) (st1 st2 st3 : Store) (m1 m2 : String)
    (hOk : fOk st = (.ok d, st1))
    (hDb : fDb st = (.error (.dbErr m1), st2))
    (hPy : fPy st = (.error (.authenticationErr m2), st3)) :
    request_in_trx ("authorize") = false ∧
    request_in_trx ("login") = true ∧
    dbconn_run true fOk st
      = ⟨some d, false, none, true, false, st1⟩ ∧
    dbconn_run true fDb st
      = ⟨none, true, none, false, true, st⟩ ∧
    dbconn_run (request_in_trx ("authorize")) fDb st
      = ⟨none, true, none, false, false, st⟩ ∧
    dbconn_run true fPy st
      = ⟨none, false, some (.authenticationErr m2), false, false, st⟩ ∧
    dbconn_run (request_in_trx ("authorize")) fPy st
      = ⟨none, false, some (.authenticationErr m2), false, false, st⟩ := by
  refine ⟨rfl, rfl, ?_, ?_, ?_, ?_, ?_⟩ <;>
    simp [dbconn_run, hOk, hDb, hPy, isDbErr, request_in_trx]

/- ## Witnesses -/

/-- Witness for C2: at time 100, with the stored counter 2 and last attempt
at time 99 (inside the 5s window), a wrong-password login updates the row to
counter 3 with status Refused and timestamp 100 and returns result False. -/
theorem c2_wrong_password_counter_policy_witness :
    ∃ st1,
      authentication_do_process defaultSettings 100 "r" c2wStore c2wData
        = (.ok { c2wData with result := some false }, st1) ∧
      ((c2wLogin.attempts = 0 →
         loginsOfUser st1 c2wUser.user_id = [⟨c2wUser.user_id, "", LOGIN_REFUSED, 1, 100⟩] ∧
         usersWithId st1 c2wUser.user_id = [c2wUser]) ∧
       (c2wLogin.attempts ≠ 0 → 100 - c2wLogin.created ≤ defaultSettings.T_LOGIN →
         c2wLogin.attempts + 1 < defaultSettings.MAX_ATTEMPTS →
         loginsOfUser st1 c2wUser.user_id
           = [⟨c2wUser.user_id, "", LOGIN_REFUSED, c2wLogin.attempts + 1, 100⟩] ∧
         usersWithId st1 c2wUser.user_id = [c2wUser]) ∧
       (c2wLogin.attempts ≠ 0 → 100 - c2wLogin.created ≤ defaultSettings.T_LOGIN →
         defaultSettings.MAX_ATTEMPTS ≤ c2wLogin.attempts + 1 →
         loginsOfUser st1 c2wUser.user_id = [⟨c2wUser.user_id, "", LOGIN_REFUSED, 0, 100⟩] ∧
         usersWithId st1 c2wUser.user_id = [{ c2wUser with status := STATUS_BLOCKED }]) ∧
       (c2wLogin.attempts ≠ 0 → defaultSettings.T_LOGIN < 100 - c2wLogin.created →
         loginsOfUser st1 c2wUser.user_id
           = [⟨c2wUser.user_id, "", LOGIN_REFUSED, c2wLogin.attempts, 100⟩] ∧
         usersWithId st1 c2wUser.user_id = [c2wUser])) :=
  c2_wrong_password_counter_policy defaultSettings 100 "r" c2wStore c2wData
    "w@x.d" "badpw" c2wUser c2wLogin rfl rfl rfl rfl rfl rfl
    (by decide) rfl

/-- Witness for C6: the blocked account of c6Store with a last attempt at
time 95 raises the TemporarilyBlocked AuthenticationError at time 100. -/
theorem c6_blocked_login_raises_witness :
    authentication_do_process defaultSettings 100 "r" c6Store c6Data
      = (.error (.authenticationErr ("user is temporally blocked, try later")), c6Store) :=
  c6_blocked_login_raises defaultSettings 100 "r" c6Store c6Data
    "b@x.d" "pw" c6User c6Login rfl rfl rfl rfl rfl rfl (by decide)

/-- Witness for C7: at time 100 the token of c7wStore (created at time 10)
is young, so the account becomes Active and the token disappears; the
expired branch holds vacuously there. -/
theorem c7_activation_outcomes_witness :
    ((defaultSettings.T_ACTIVATION ≤ 100 - c7wAct.created →
      ∃ st1, activation_do_process defaultSettings 100 c7wStore c7wData
          = (.error (.activationErr ("activation link expired")), st1) ∧
        actsByAid st1 "tok7" = [] ∧ usersWithId st1 c7wAct.user_id = []) ∧
     (100 - c7wAct.created < defaultSettings.T_ACTIVATION →
      ∃ st1, activation_do_process defaultSettings 100 c7wStore c7wData
          = (.ok { c7wData with result := some true }, st1) ∧
        actsByAid st1 "tok7" = [] ∧
        usersWithId st1 c7wAct.user_id = [{ c7wUser with status := STATUS_ACTIVE }])) :=
  c7_activation_outcomes defaultSettings 100 c7wStore c7wData "tok7" c7wAct c7wUser
    rfl rfl rfl rfl rfl

/-- Witness for C8: at time 86401 the token of c8aStore (created at time 0)
is strictly older than the TTL, so the pending-activation case is vacuous
and the re-registration case applies, together with the no-token crash case
holding vacuously. -/
theorem c8_reregistration_amended_witness :
    ((∀ act, actsOfUser c8aStore c8User.user_id = [act] → actTruthy act = true →
       86401 - act.created ≤ defaultSettings.T_ACTIVATION →
       registration_do_process defaultSettings 86401 "fresh" c8aStore c8Data
         = (.error (.registrationErr ("user already registered but not activated")), c8aStore)) ∧
     (∀ act, actsOfUser c8aStore c8User.user_id = [act] → actTruthy act = true →
       defaultSettings.T_ACTIVATION < 86401 - act.created →
       ∃ st1, registration_do_process defaultSettings 86401 "fresh" c8aStore c8Data
           = (.ok { c8Data with result := some true, pwd := none }, st1) ∧
         usersWithId st1 c8User.user_id = [{ c8User with password := "newpw" }] ∧
         actsOfUser st1 c8User.user_id
           = [{ user_id := c8User.user_id, activation_id := "fresh", created := 86401 }]) ∧
     (actsOfUser c8aStore c8User.user_id = [] →
       (registration_do_process defaultSettings 86401 "fresh" c8aStore c8Data).1
         = .error (.attrErr ("Activation instance has no id attribute")))) :=
  c8_reregistration_amended defaultSettings 86401 "fresh" c8aStore c8Data
    "i@x.d" "newpw" c8User rfl rfl rfl rfl rfl

/-- Witness for C9: instantiating the decorator runs with the three concrete
flow bodies and the concrete store. -/
theorem c9_transaction_amended_witness :
    (request_in_trx ("authorize") = false ∧
     request_in_trx ("login") = true ∧
     dbconn_run true c9FlowOk c9Store
       = ⟨some c9Data, false, none, true, false, c9Store⟩ ∧
     dbconn_run true c9FlowDb c9Store
       = ⟨none, true, none, false, true, c9Store⟩ ∧
     dbconn_run (request_in_trx ("authorize")) c9FlowDb c9Store
       = ⟨none, true, none, false, false, c9Store⟩ ∧
     dbconn_run true c9FlowPy c9Store
       = ⟨none, false, some (.authenticationErr ("domain failure")), false, false, c9Store⟩ ∧
     dbconn_run (request_in_trx ("authorize")) c9FlowPy c9Store
       = ⟨none, false, some (.authenticationErr ("domain failure")), false, false, c9Store⟩) :=
  c9_transaction_amended c9FlowOk c9FlowDb c9FlowPy c9Store
    c9Data c9Store c9Store c9Store "store failure" "domain failure" rfl rfl rfl

/-- Witness for C10: the blocked account of c10wStore has no Session row, so
check_user sets it back to Active and returns it, and the blocked-error
direction holds with a vacuously false antecedent. -/
theorem c10_blocked_empty_login_unblocks_witness :
    ((optLoginTruthy none = false →
      auth_check_user defaultSettings 100 c10wStore c10wUser =
        (.ok { c10wUser with status := STATUS_ACTIVE },
         { c10wStore with users := c10wStore.users.map (fun u =>
             if u.user_id == c10wUser.user_id then
               { c10wUser with status := STATUS_ACTIVE } else u) })) ∧
     ((auth_check_user defaultSettings 100 c10wStore c10wUser).1
         = .error (.authenticationErr ("user is temporally blocked, try later")) →
      ∃ l, (none : Option LoginRow) = some l ∧ loginTruthy l = true ∧
        (100 : Int) - l.created ≤ defaultSettings.T_BLOCKED)) :=
  c10_blocked_empty_login_unblocks defaultSettings 100 c10wStore c10wUser none
    rfl rfl rfl

end PySAA
